import Mathlib

/-!
Verification of the Home Assistant MCP proxy (session bootstrap, device
context cache, control dispatcher) against its natural-language design
document.  The Python sources `mcp_server.py` and `home_assistant_setup.py`
are shallowly embedded below: pure computations become Lean functions,
the mutable controller fields become an explicit state record, network
collaborators (the hub client, the YAML parser outcome) become explicit
environment parameters, and raised exceptions become `Except` values.
Machine 32-bit arithmetic in MD5 is `Nat` arithmetic reduced mod 2^32.
-/

set_option maxRecDepth 100000

namespace HAMCP

/-! ## MD5 (hashlib.md5, as used for device ids and the context hash)

The source calls `hashlib.md5(...).hexdigest()`.  We embed the MD5
algorithm (RFC 1321) over byte lists, with 32-bit words as `Nat` mod 2^32. -/

def mask32 : Nat := 4294967296

def add32 (a b : Nat) : Nat := (a + b) % mask32

def not32 (x : Nat) : Nat := x ^^^ 4294967295

def rotl32 (x s : Nat) : Nat := ((x <<< s) ||| (x >>> (32 - s))) % mask32

def md5K : List Nat :=
  [0xd76aa478, 0xe8c7b756, 0x242070db, 0xc1bdceee,
   0xf57c0faf, 0x4787c62a, 0xa8304613, 0xfd469501,
   0x698098d8, 0x8b44f7af, 0xffff5bb1, 0x895cd7be,
   0x6b901122, 0xfd987193, 0xa679438e, 0x49b40821,
   0xf61e2562, 0xc040b340, 0x265e5a51, 0xe9b6c7aa,
   0xd62f105d, 0x02441453, 0xd8a1e681, 0xe7d3fbc8,
   0x21e1cde6, 0xc33707d6, 0xf4d50d87, 0x455a14ed,
   0xa9e3e905, 0xfcefa3f8, 0x676f02d9, 0x8d2a4c8a,
   0xfffa3942, 0x8771f681, 0x6d9d6122, 0xfde5380c,
   0xa4beea44, 0x4bdecfa9, 0xf6bb4b60, 0xbebfbc70,
   0x289b7ec6, 0xeaa127fa, 0xd4ef3085, 0x04881d05,
   0xd9d4d039, 0xe6db99e5, 0x1fa27cf8, 0xc4ac5665,
   0xf4292244, 0x432aff97, 0xab9423a7, 0xfc93a039,
   0x655b59c3, 0x8f0ccc92, 0xffeff47d, 0x85845dd1,
   0x6fa87e4f, 0xfe2ce6e0, 0xa3014314, 0x4e0811a1,
   0xf7537e82, 0xbd3af235, 0x2ad7d2bb, 0xeb86d391]

def md5S : List Nat :=
  [7, 12, 17, 22, 7, 12, 17, 22, 7, 12, 17, 22, 7, 12, 17, 22,
   5,  9, 14, 20, 5,  9, 14, 20, 5,  9, 14, 20, 5,  9, 14, 20,
   4, 11, 16, 23, 4, 11, 16, 23, 4, 11, 16, 23, 4, 11, 16, 23,
   6, 10, 15, 21, 6, 10, 15, 21, 6, 10, 15, 21, 6, 10, 15, 21]

/-- State of the MD5 compression function: four 32-bit words. -/
structure MD5State where
  a : Nat
  b : Nat
  c : Nat
  d : Nat
  deriving Repr, DecidableEq

def md5Step (m : List Nat) (st : MD5State) (i : Nat) : MD5State :=
  let f :=
    if i < 16 then (st.b &&& st.c) ||| (not32 st.b &&& st.d)
    else if i < 32 then (st.d &&& st.b) ||| (not32 st.d &&& st.c)
    else if i < 48 then st.b ^^^ st.c ^^^ st.d
    else st.c ^^^ (st.b ||| not32 st.d)
  let g :=
    if i < 16 then i
    else if i < 32 then (5 * i + 1) % 16
    else if i < 48 then (3 * i + 5) % 16
    else (7 * i) % 16
  let tmp := add32 (add32 (add32 st.a f) (md5K.getD i 0)) (m.getD g 0)
  { a := st.d, b := add32 st.b (rotl32 tmp (md5S.getD i 0)), c := st.b, d := st.c }

/-- Little-endian byte decomposition of `n` into `k` bytes. -/
def toLEBytes (n k : Nat) : List Nat :=
  (List.range k).map (fun i => (n >>> (8 * i)) % 256)

/-- The `j`-th little-endian 32-bit word of a 64-byte chunk. -/
def leWord (chunk : List Nat) (j : Nat) : Nat :=
  chunk.getD (4 * j) 0
    + (chunk.getD (4 * j + 1) 0) <<< 8
    + (chunk.getD (4 * j + 2) 0) <<< 16
    + (chunk.getD (4 * j + 3) 0) <<< 24

def md5ProcessChunk (st : MD5State) (chunk : List Nat) : MD5State :=
  let m := (List.range 16).map (leWord chunk)
  let r := (List.range 64).foldl (md5Step m) st
  { a := add32 st.a r.a, b := add32 st.b r.b, c := add32 st.c r.c, d := add32 st.d r.d }

/-- MD5 padding: append 0x80, zero-fill to 56 mod 64, append the 64-bit
little-endian bit length. -/
def md5Pad (msg : List Nat) : List Nat :=
  let z := (119 - msg.length % 64) % 64
  msg ++ [0x80] ++ List.replicate z 0 ++ toLEBytes ((msg.length * 8) % (2 ^ 64)) 8

def md5Init : MD5State :=
  { a := 0x67452301, b := 0xefcdab89, c := 0x98badcfe, d := 0x10325476 }

def md5Core (msg : List Nat) : MD5State :=
  let p := md5Pad msg
  (List.range (p.length / 64)).foldl
    (fun st ci => md5ProcessChunk st ((p.drop (64 * ci)).take 64)) md5Init

def hexDigit (n : Nat) : Char :=
  if n < 10 then Char.ofNat (48 + n) else Char.ofNat (87 + n)

def byteHex (b : Nat) : List Char := [hexDigit (b / 16), hexDigit (b % 16)]

/-- Lowercase hex digest of the MD5 of a byte list (hashlib `hexdigest`). -/
def md5_hex (msg : List Nat) : String :=
  let st := md5Core msg
  String.mk ((toLEBytes st.a 4 ++ toLEBytes st.b 4 ++ toLEBytes st.c 4
      ++ toLEBytes st.d 4).map byteHex).flatten

/-! ## UTF-8 encoding (str.encode into bytes) -/

def utf8Char (c : Char) : List Nat :=
  let n := c.toNat
  if n < 0x80 then [n]
  else if n < 0x800 then
    [0xc0 ||| (n >>> 6), 0x80 ||| (n &&& 0x3f)]
  else if n < 0x10000 then
    [0xe0 ||| (n >>> 12), 0x80 ||| ((n >>> 6) &&& 0x3f), 0x80 ||| (n &&& 0x3f)]
  else
    [0xf0 ||| (n >>> 18), 0x80 ||| ((n >>> 12) &&& 0x3f),
     0x80 ||| ((n >>> 6) &&& 0x3f), 0x80 ||| (n &&& 0x3f)]

def str_utf8 (s : String) : List Nat := (s.data.map utf8Char).flatten

/-- MD5 of a Lean string, UTF-8 encoded: `hashlib.md5(s.encode("utf-8")).hexdigest()`. -/
def md5_hex_str (s : String) : String := md5_hex (str_utf8 s)

/-! ## Controller data model (mcp_server.py)

A Home Assistant device record is a YAML mapping; the controller only
ever reads the keys `names`, `areas` and `id`, with `dict.get` returning
`None` for absent keys, so we embed a record as three optional fields.
An absent key is `none`; `item.get("names", "")` is `names.getD ""`. -/

structure DeviceRec where
  names : Option String := none
  areas : Option String := none
  id : Option String := none
  deriving Repr, DecidableEq

/-- Mutable fields `_context` / `_context_hash` of `HomeAssistantController`. -/
structure CState where
  context : Option (List DeviceRec) := none
  contextHash : Option String := none
  deriving Repr, DecidableEq

/-- Hub response: the JSON-decoded text of a successful tool call,
kept opaque. -/
abbrev HubResp := String

/-- One MCP tool call against the hub: tool name plus the `arguments`
mapping, embedded as an ordered association list of string pairs so that
presence and absence of keys is observable. -/
structure HubCall where
  tool : String
  args : List (String × String)
  deriving Repr, DecidableEq

/-- Outcome of `yaml.safe_load` on the raw context string: a YAML list
of device mappings, a successfully parsed non-list value, or a YAMLError. -/
inductive ParseOutcome where
  | list (xs : List DeviceRec)
  | nonList
  | failure (msg : String)
  deriving Repr, DecidableEq

/-- Environment of one controller operation: the observable behaviour of
the network collaborators during the call.  `fetchRaw` is the outcome of
`_get_raw_context` (already label-stripped raw inventory text, or the
exception it raises); `parse` is `yaml.safe_load`; `hub` is
`client.call_tool` for control commands together with the JSON decode of
its response (an `Except.error` is any exception the call raises). -/
structure CtrlEnv where
  fetchRaw : Except String String
  parse : String → ParseOutcome
  hub : HubCall → Except String HubResp

/-- `_process_context`: adds `item["id"] = md5(item.get("names", "").encode("utf-8")).hexdigest()`
to one record. -/
def process_item (d : DeviceRec) : DeviceRec :=
  { d with id := some (md5_hex_str (d.names.getD "")) }

/-- `_process_context` over the whole list (in-place mutation of each item
becomes a map). -/
def _process_context (xs : List DeviceRec) : List DeviceRec :=
  xs.map process_item

/-- `get_processed_context`: fetch the raw context, hash it, refresh the
cache when forced, empty or stale, and return the cached list.  The
returned pair is (post-call controller state, result or raised ToolError
message); on an error the first component is the unchanged state. -/
def get_processed_context (env : CtrlEnv) (st : CState) (force_refresh : Bool) :
    CState × Except String (List DeviceRec) :=
  match env.fetchRaw with
  | .error e => (st, .error e)
  | .ok raw_context_str =>
    let new_hash := md5_hex_str raw_context_str
    if force_refresh = true ∨ st.context = none ∨ st.contextHash ≠ some new_hash then
      match env.parse raw_context_str with
      | .failure e => (st, .error ("Error parsing YAML from context: " ++ e))
      | .nonList => (st, .error "Parsed context from Home Assistant is not a list.")
      | .list xs =>
        let processed := _process_context xs
        ({ context := some processed, contextHash := some new_hash }, .ok processed)
    else
      match st.context with
      | some c => (st, .ok c)
      | none => (st, .error "Failed to load context.")

/-- `_hass_turn`: tool name and arguments of the turn-on/off hub command. -/
def hass_turn_call (names areas : String) (turn_on : Bool) : HubCall :=
  { tool := if turn_on then "HassTurnOn" else "HassTurnOff",
    args := [("name", names), ("area", areas)] }

/-- `_hass_light_set`: tool name and arguments of the HassLightSet hub
command; the brightness key is added only when the value is not None,
converted by `str(...)`. -/
def hass_light_set_call (names area : String) (brightness : Option Int) : HubCall :=
  { tool := "HassLightSet",
    args := [("name", names), ("area", area)] ++
      (match brightness with
       | some b => [("brightness", toString b)]
       | none => []) }

/-- One per-device result dictionary appended to `results`; keys absent
from the Python dict are `none` here. -/
structure ControlOutcome where
  success : Bool
  device_id : Option String := none
  result : Option HubResp := none
  error : Option String := none
  deriving Repr, DecidableEq

/-- One iteration of the `control_switch` loop for a single device id:
the produced outcome together with the list of hub commands issued
during the iteration. -/
def switch_dispatch_one (hub : HubCall → Except String HubResp)
    (context : List DeviceRec) (turn_on : Bool) (device_id : String) :
    ControlOutcome × List HubCall :=
  match context.find? (fun item => item.id == some device_id) with
  | none =>
    ({ success := false,
       error := some ("Device with id '" ++ device_id ++ "' not found.") }, [])
  | some target_device =>
    match target_device.names, target_device.areas with
    | some names, some areas =>
      (match hub (hass_turn_call names areas turn_on) with
       | .ok r =>
         ({ success := true, device_id := some device_id, result := some r },
          [hass_turn_call names areas turn_on])
       | .error e =>
         ({ success := false, device_id := some device_id, error := some e },
          [hass_turn_call names areas turn_on]))
    | _, _ =>
      ({ success := false,
         error := some ("Device '" ++ device_id ++ "' is missing 'names' or 'areas' information.") },
       [])

/-- `control_switch`: resolves the context (plain cache read, no forced
refresh) and dispatches each id independently, collecting outcomes in
input order.  An error from the context read propagates (it is raised
before the loop); the loop itself never raises. -/
def control_switch (env : CtrlEnv) (st : CState) (device_ids : List String) (turn_on : Bool) :
    CState × Except String (List ControlOutcome) :=
  match get_processed_context env st false with
  | (st', .error e) => (st', .error e)
  | (st', .ok context) =>
    (st', .ok (device_ids.map (fun i => (switch_dispatch_one env.hub context turn_on i).1)))

/-- One iteration of the `control_light_brightness` loop for a single
device id. -/
def light_dispatch_one (hub : HubCall → Except String HubResp)
    (context : List DeviceRec) (brightness : Option Int) (device_id : String) :
    ControlOutcome × List HubCall :=
  match context.find? (fun item => item.id == some device_id) with
  | none =>
    ({ success := false,
       error := some ("Device with id '" ++ device_id ++ "' not found.") }, [])
  | some target_device =>
    match target_device.names, target_device.areas with
    | some names, some areas =>
      (match hub (hass_light_set_call names areas brightness) with
       | .ok r =>
         ({ success := true, device_id := some device_id, result := some r },
          [hass_light_set_call names areas brightness])
       | .error e =>
         ({ success := false, device_id := some device_id, error := some e },
          [hass_light_set_call names areas brightness]))
    | _, _ =>
      ({ success := false,
         error := some ("Device '" ++ device_id ++ "' is missing 'names' or 'areas' information.") },
       [])

/-- `control_light_brightness`: cache read followed by the per-id
dispatch loop, outcomes collected in input order. -/
def control_light_brightness (env : CtrlEnv) (st : CState) (device_ids : List String)
    (brightness : Option Int) : CState × Except String (List ControlOutcome) :=
  match get_processed_context env st false with
  | (st', .error e) => (st', .error e)
  | (st', .ok context) =>
    (st', .ok (device_ids.map (fun i => (light_dispatch_one env.hub context brightness i).1)))

/-! ## Session bootstrap (home_assistant_setup.py)

The bootstrap talks to the filesystem (the token cache file) and to the
hub over a WebSocket session.  The filesystem is an association list
from paths to file contents; every external interaction is recorded as
an event so that statements about "how many sessions were opened" or
"which files were read" are direct statements about the run's trace. -/

/-- A hub-reported refresh-token record (fields read with `dict.get(_, "")`). -/
structure RefreshTok where
  type : String := ""
  id : String := ""
  client_name : String := ""
  deriving Repr, DecidableEq

/-- Observable external events of one bootstrap run. -/
inductive HAEv where
  | mkdirCache
  | authRoundTrip
  | sessionOpen
  | sessionClose
  | fileRead (path : String)
  | fileWrite (path : String)
  | fileRemove (path : String)
  | deleteRefreshToken (id : String)
  | createLongLivedToken
  | subscribeConfigEntries
  | integrationSetup
  deriving Repr, DecidableEq

/-- The cache directory's filesystem: path to file content. -/
abbrev FS := List (String × String)

def fsRead (fs : FS) (p : String) : Option String :=
  (fs.find? (fun e => e.1 == p)).map (fun e => e.2)

def fsWrite (fs : FS) (p v : String) : FS :=
  (p, v) :: fs.filter (fun e => e.1 != p)

def fsRemove (fs : FS) (p : String) : FS :=
  fs.filter (fun e => e.1 != p)

/-- Environment of one bootstrap run: configuration and the behaviour of
the hub collaborators during the run. `wsAuthError = some e` means the
first WebSocket session raises `HAAuthError e`. -/
structure SetupEnv where
  cache_dir : String
  cacheDirExists : Bool
  authTokenValue : String
  wsAuthError : Option String := none
  refresh_tokens : List RefreshTok := []
  createdTokenValue : String := ""
  haveMcpServer : Bool := false

/-- `token_file = os.path.join(home_assistant_cache_dir, "token.txt")`. -/
def token_file (env : SetupEnv) : String := env.cache_dir ++ "/token.txt"

/-- `f.readline().strip()` on a cached file's content. -/
def first_line_strip (s : String) : String :=
  ((s.splitOn "\n").headD "").trim

/-- `_get_access_token`: read the token file if it exists, otherwise run
the username/password authentication round-trip. Returns the access
token together with the events of this step. -/
def _get_access_token (env : SetupEnv) (fs : FS) (tf : String) : String × List HAEv :=
  match fsRead fs tf with
  | some content => (first_line_strip content, [HAEv.fileRead tf])
  | none => (env.authTokenValue, [HAEv.authRoundTrip])

/-- `_delete_existing_mcp_tokens`: delete every refresh token of type
`long_lived_access_token` whose client name is "mcp". -/
def _delete_existing_mcp_tokens (env : SetupEnv) : List HAEv :=
  (env.refresh_tokens.filter
      (fun t => t.type == "long_lived_access_token" && t.client_name == "mcp")).map
    (fun t => HAEv.deleteRefreshToken t.id)

/-- `_get_or_create_mcp_token`: read the token file if it exists;
otherwise delete stale "mcp" tokens, create a fresh long-lived token and
write it to the file.  Returns the token, the filesystem after the step
and the step's events. -/
def _get_or_create_mcp_token (env : SetupEnv) (fs : FS) (tf : String) :
    String × FS × List HAEv :=
  match fsRead fs tf with
  | some content => (first_line_strip content, fs, [HAEv.fileRead tf])
  | none =>
    (env.createdTokenValue, fsWrite fs tf env.createdTokenValue,
      _delete_existing_mcp_tokens env ++ [HAEv.createLongLivedToken, HAEv.fileWrite tf])

/-- `_setup_mcp_integration_if_needed`: subscribe to config entries and,
when no `mcp_server` integration was observed, run the integration setup. -/
def _setup_mcp_integration_if_needed (env : SetupEnv) : List HAEv :=
  [HAEv.subscribeConfigEntries] ++ (if env.haveMcpServer then [] else [HAEv.integrationSetup])

/-- `get_or_create_long_token`: ensure the cache dir, resolve the access
token, then run the WebSocket block.  The source contains the session
block twice in sequence (a `try`-ed first pass whose `HAAuthError`
handler deletes the token file and re-raises, then an unconditional
second pass that returns the token), so a successful run performs both
passes.  Returns the result, the final filesystem and the event trace. -/
def get_or_create_long_token (env : SetupEnv) (fs0 : FS) :
    Except String String × FS × List HAEv :=
  let mkEvs : List HAEv := if env.cacheDirExists then [] else [HAEv.mkdirCache]
  let tf := token_file env
  let acc := _get_access_token env fs0 tf
  match env.wsAuthError with
  | some e =>
    (Except.error e, fsRemove fs0 tf, mkEvs ++ acc.2 ++ [HAEv.fileRemove tf])
  | none =>
    let pass1 := _get_or_create_mcp_token env fs0 tf
    let evI1 := _setup_mcp_integration_if_needed env
    let pass2 := _get_or_create_mcp_token env pass1.2.1 tf
    let evI2 := _setup_mcp_integration_if_needed env
    (Except.ok pass2.1, pass2.2.1,
      mkEvs ++ acc.2
        ++ [HAEv.sessionOpen] ++ pass1.2.2 ++ evI1 ++ [HAEv.sessionClose]
        ++ [HAEv.sessionOpen] ++ pass2.2.2 ++ evI2 ++ [HAEv.sessionClose])

/-- Number of hub sessions opened during a bootstrap trace. -/
def countSessionOpens (tr : List HAEv) : Nat := tr.count HAEv.sessionOpen

/-- Number of hub sessions closed during a bootstrap trace. -/
def countSessionCloses (tr : List HAEv) : Nat := tr.count HAEv.sessionClose

/-- Paths whose contents a trace reads. -/
def readPaths (tr : List HAEv) : List String :=
  tr.filterMap (fun ev => match ev with | HAEv.fileRead p => some p | _ => none)

/-! ## Theorems -/

/-- Sanity check against the RFC 1321 test suite: MD5 of the empty message. -/
theorem md5_test_vector_empty : md5_hex_str "" = "d41d8cd98f00b204e9800998ecf8427e" := by
  decide

/-- Sanity check against the RFC 1321 test suite: MD5 of "abc". -/
theorem md5_test_vector_abc : md5_hex_str "abc" = "900150983cd24fb0d6963f7d28e17f72" := by
  decide

/-! ### Helper lemmas about the bootstrap trace -/

lemma delete_evs_shape (env : SetupEnv) :
    ∀ ev ∈ _delete_existing_mcp_tokens env, ∃ i, ev = HAEv.deleteRefreshToken i := by
  intro ev h
  simp only [_delete_existing_mcp_tokens, List.mem_map] at h
  obtain ⟨t, _, rfl⟩ := h
  exact ⟨t.id, rfl⟩

lemma delete_evs_count (env : SetupEnv) (e : HAEv)
    (he : ∀ i, e ≠ HAEv.deleteRefreshToken i) :
    (_delete_existing_mcp_tokens env).count e = 0 := by
  refine List.count_eq_zero.mpr (fun h => ?_)
  obtain ⟨i, hi⟩ := delete_evs_shape env e h
  exact he i hi

lemma access_no_session (env : SetupEnv) (fs : FS) (tf : String) :
    (_get_access_token env fs tf).2.count HAEv.sessionOpen = 0 ∧
    (_get_access_token env fs tf).2.count HAEv.sessionClose = 0 := by
  unfold _get_access_token
  cases fsRead fs tf <;> simp

lemma mcp_token_no_session (env : SetupEnv) (fs : FS) (tf : String) :
    (_get_or_create_mcp_token env fs tf).2.2.count HAEv.sessionOpen = 0 ∧
    (_get_or_create_mcp_token env fs tf).2.2.count HAEv.sessionClose = 0 := by
  unfold _get_or_create_mcp_token
  have h1 := delete_evs_count env HAEv.sessionOpen (fun i h => HAEv.noConfusion h)
  have h2 := delete_evs_count env HAEv.sessionClose (fun i h => HAEv.noConfusion h)
  cases fsRead fs tf <;> simp [List.count_append, h1, h2]

lemma integration_no_session (env : SetupEnv) :
    (_setup_mcp_integration_if_needed env).count HAEv.sessionOpen = 0 ∧
    (_setup_mcp_integration_if_needed env).count HAEv.sessionClose = 0 := by
  unfold _setup_mcp_integration_if_needed
  cases env.haveMcpServer <;> simp

/-- Concrete bootstrap environment: cache directory present, healthy hub,
a token already cached. -/
def envBoot : SetupEnv :=
  { cache_dir := "./.cache", cacheDirExists := true, authTokenValue := "base-tok",
    wsAuthError := none, refresh_tokens := [], createdTokenValue := "mcp-tok",
    haveMcpServer := true }

/-- Concrete filesystem: the token cache file already exists. -/
def fsBoot : FS := [("./.cache/token.txt", "cached-mcp-token")]

/-- C1.  The claim says every bootstrap call opens and closes exactly one
hub session.  The code's duplicated WebSocket block means every run that
does not raise `HAAuthError` opens and closes exactly two hub sessions,
whatever the credential cache state — contradicting both the claim and
the design document's canonical §4.2 behaviour (the document itself calls
the duplication a defect). -/
theorem bootstrap_opens_two_sessions (env : SetupEnv) (fs : FS)
    (h : env.wsAuthError = none) :
    countSessionOpens (get_or_create_long_token env fs).2.2 = 2 ∧
    countSessionCloses (get_or_create_long_token env fs).2.2 = 2 := by
  unfold get_or_create_long_token countSessionOpens countSessionCloses
  rw [h]
  simp only [List.count_append]
  have hA := access_no_session env fs (token_file env)
  have hM1 := mcp_token_no_session env fs (token_file env)
  have hM2 := mcp_token_no_session env
      (_get_or_create_mcp_token env fs (token_file env)).2.1 (token_file env)
  have hI := integration_no_session env
  cases env.cacheDirExists <;>
    simp [hA.1, hA.2, hM1.1, hM1.2, hM2.1, hM2.2, hI.1, hI.2]

/-- C1 witness: on a run with the token already cached and a healthy hub,
two sessions are opened and two are closed. -/
theorem bootstrap_opens_two_sessions_witness :
    countSessionOpens (get_or_create_long_token envBoot fsBoot).2.2 = 2 ∧
    countSessionCloses (get_or_create_long_token envBoot fsBoot).2.2 = 2 :=
  bootstrap_opens_two_sessions envBoot fsBoot rfl

/-! ### C9: credential storage locations -/

/-- Paths of all file accesses (reads, writes, removals) in a trace. -/
def filePaths (tr : List HAEv) : List String :=
  tr.filterMap fun ev =>
    match ev with
    | HAEv.fileRead p => some p
    | HAEv.fileWrite p => some p
    | HAEv.fileRemove p => some p
    | _ => none

lemma filePaths_append (a b : List HAEv) :
    filePaths (a ++ b) = filePaths a ++ filePaths b :=
  List.filterMap_append a b _

lemma filePaths_delete (env : SetupEnv) :
    filePaths (_delete_existing_mcp_tokens env) = [] := by
  refine List.filterMap_eq_nil_iff.mpr (fun ev h => ?_)
  obtain ⟨i, rfl⟩ := delete_evs_shape env ev h
  rfl

lemma filePaths_access (env : SetupEnv) (fs : FS) (tf : String) :
    ∀ p ∈ filePaths (_get_access_token env fs tf).2, p = tf := by
  unfold _get_access_token
  cases fsRead fs tf <;> simp [filePaths]

lemma filePaths_mcp_token (env : SetupEnv) (fs : FS) (tf : String) :
    ∀ p ∈ filePaths (_get_or_create_mcp_token env fs tf).2.2, p = tf := by
  unfold _get_or_create_mcp_token
  cases fsRead fs tf with
  | none =>
    intro p hp
    rw [filePaths_append, List.mem_append, filePaths_delete] at hp
    simpa [filePaths] using hp
  | some c =>
    intro p hp
    simpa [filePaths] using hp

lemma filePaths_integration (env : SetupEnv) :
    filePaths (_setup_mcp_integration_if_needed env) = [] := by
  unfold _setup_mcp_integration_if_needed
  cases env.haveMcpServer <;> rfl

lemma filePaths_mkEvs (env : SetupEnv) :
    filePaths (if env.cacheDirExists then ([] : List HAEv) else [HAEv.mkdirCache]) = [] := by
  cases env.cacheDirExists <;> rfl

lemma filePaths_bootstrap (env : SetupEnv) (fs : FS) :
    ∀ p ∈ filePaths (get_or_create_long_token env fs).2.2, p = token_file env := by
  intro p hp
  simp only [get_or_create_long_token] at hp
  cases hws : env.wsAuthError <;> rw [hws] at hp
  · simp only [filePaths_append, filePaths_mkEvs, filePaths_integration,
      List.nil_append, List.append_nil, List.mem_append, List.not_mem_nil,
      or_false, false_or,
      show filePaths [HAEv.sessionOpen] = [] from rfl,
      show filePaths [HAEv.sessionClose] = [] from rfl] at hp
    rcases hp with (hp | hp) | hp
    · exact filePaths_access env fs _ p hp
    · exact filePaths_mcp_token env fs _ p hp
    · exact filePaths_mcp_token env _ _ p hp
  · simp only [filePaths_append, filePaths_mkEvs, List.nil_append,
      List.mem_append,
      show ∀ tf, filePaths [HAEv.fileRemove tf] = [tf] from fun _ => rfl,
      List.mem_singleton] at hp
    rcases hp with hp | hp
    · exact filePaths_access env fs _ p hp
    · exact hp

/-- C9 counterexample: in one bootstrap run with a populated cache, the
base-credential load and the scoped-credential load both read the very
same file `./.cache/token.txt` — the two credential kinds do not live in
two distinct files. -/
theorem base_and_scoped_token_same_file :
    (_get_access_token envBoot fsBoot (token_file envBoot)).2 =
      [HAEv.fileRead "./.cache/token.txt"] ∧
    (_get_or_create_mcp_token envBoot fsBoot (token_file envBoot)).2.2 =
      [HAEv.fileRead "./.cache/token.txt"] ∧
    readPaths (get_or_create_long_token envBoot fsBoot).2.2 =
      ["./.cache/token.txt", "./.cache/token.txt", "./.cache/token.txt"] := by
  decide

/-- C9 amended: the bootstrap persists both credential kinds in a single
text file `token.txt` under the cache directory; every file read, write
or removal in any bootstrap run touches exactly this one path, so the
base-credential load and the scoped-credential load read the same
storage location rather than two distinct ones. -/
theorem bootstrap_single_token_file (env : SetupEnv) (fs : FS) (p : String) :
    (HAEv.fileRead p ∈ (get_or_create_long_token env fs).2.2 ∨
     HAEv.fileWrite p ∈ (get_or_create_long_token env fs).2.2 ∨
     HAEv.fileRemove p ∈ (get_or_create_long_token env fs).2.2) →
    p = env.cache_dir ++ "/token.txt" := by
  intro h
  have hp : p ∈ filePaths (get_or_create_long_token env fs).2.2 := by
    rcases h with h | h | h <;> exact List.mem_filterMap.mpr ⟨_, h, rfl⟩
  exact filePaths_bootstrap env fs p hp

/-- C9 witness: applying the amended theorem at the concrete run shows
the one storage location is `./.cache/token.txt`. -/
theorem bootstrap_single_token_file_witness :
    "./.cache/token.txt" = envBoot.cache_dir ++ "/token.txt" :=
  bootstrap_single_token_file envBoot fsBoot "./.cache/token.txt"
    (Or.inl (by decide))

/-! ### Helper lemmas about the context cache -/

lemma get_processed_context_cached (env : CtrlEnv) (st : CState) (raw : String)
    (c : List DeviceRec) (h1 : env.fetchRaw = Except.ok raw) (h2 : st.context = some c)
    (h3 : st.contextHash = some (md5_hex_str raw)) :
    get_processed_context env st false = (st, Except.ok c) := by
  simp [get_processed_context, h1, h2, h3]

lemma get_processed_context_refresh (env : CtrlEnv) (st : CState) (force : Bool)
    (raw : String) (xs : List DeviceRec)
    (h1 : env.fetchRaw = Except.ok raw) (h2 : env.parse raw = ParseOutcome.list xs)
    (hc : force = true ∨ st.context = none ∨ st.contextHash ≠ some (md5_hex_str raw)) :
    get_processed_context env st force =
      ({ context := some (_process_context xs), contextHash := some (md5_hex_str raw) },
       Except.ok (_process_context xs)) := by
  simp only [get_processed_context, h1]
  rw [if_pos hc]
  simp [h2]

/-! ### Concrete controller fixtures -/

/-- A device with both attributes present. -/
def devW : DeviceRec := { names := some "Lamp", areas := some "Room" }

/-- A device with a name but no area. -/
def devNameOnly : DeviceRec := { names := some "Desk Lamp", areas := none, id := some "d1" }

/-- A fully attributed cached device with a known id. -/
def devFull : DeviceRec :=
  { names := some "Ceiling Lamp", areas := some "Living Room", id := some "dev-1" }

/-- A hub that accepts every command. -/
def hubAccept : HubCall → Except String HubResp := fun _ => Except.ok "{}"

/-- A hub whose every command raises. -/
def hubReject : HubCall → Except String HubResp := fun _ => Except.error "boom"

/-- Environment with one well-formed device and a failing hub. -/
def envW : CtrlEnv :=
  { fetchRaw := Except.ok "inv", parse := fun _ => ParseOutcome.list [devW],
    hub := hubReject }

/-- Environment whose inventory parses to an empty device list. -/
def envDisp : CtrlEnv :=
  { fetchRaw := Except.ok "inventory", parse := fun _ => ParseOutcome.list [],
    hub := hubAccept }

/-- Environment whose inventory fails to parse. -/
def envBadParse : CtrlEnv :=
  { fetchRaw := Except.ok "inv", parse := fun _ => ParseOutcome.failure "bad yaml",
    hub := hubAccept }

/-- Controller state whose cache already matches the fetched inventory. -/
def stCached : CState :=
  { context := some [devW], contextHash := some (md5_hex_str "inv") }

/-! ### C3: hash-gated cache refresh -/

/-- C3.  With an existing cache whose stored hash equals the hash of the
freshly fetched raw inventory, `get_processed_context false` returns the
cached list and leaves the state unchanged, and its result does not
depend on the parser at all (no re-parse); if the refresh condition
holds (forced, no cache, or hash differs) and the raw text parses to a
list, the records are processed (each assigned an id) and both cache and
hash are replaced. -/
theorem context_cache_hash_gated :
    (∀ env st raw c, env.fetchRaw = Except.ok raw → st.context = some c →
       st.contextHash = some (md5_hex_str raw) →
       get_processed_context env st false = (st, Except.ok c) ∧
       ∀ pf : String → ParseOutcome,
         get_processed_context { env with parse := pf } st false = (st, Except.ok c))
    ∧ (∀ env st force raw xs, env.fetchRaw = Except.ok raw →
        env.parse raw = ParseOutcome.list xs →
        (force = true ∨ st.context = none ∨ st.contextHash ≠ some (md5_hex_str raw)) →
        get_processed_context env st force =
          ({ context := some (_process_context xs),
             contextHash := some (md5_hex_str raw) }, Except.ok (_process_context xs)) ∧
        ∀ d ∈ _process_context xs, d.id ≠ none) := by
  constructor
  · intro env st raw c h1 h2 h3
    exact ⟨get_processed_context_cached env st raw c h1 h2 h3,
      fun pf => get_processed_context_cached { env with parse := pf } st raw c h1 h2 h3⟩
  · intro env st force raw xs h1 h2 hc
    refine ⟨get_processed_context_refresh env st force raw xs h1 h2 hc, ?_⟩
    intro d hd
    simp only [_process_context, List.mem_map] at hd
    obtain ⟨a, _, rfl⟩ := hd
    simp [process_item]

/-- C3 witness: a cached state with a matching hash is returned unchanged. -/
theorem context_cache_hash_gated_witness :
    get_processed_context envW stCached false = (stCached, Except.ok [devW]) :=
  (context_cache_hash_gated.1 envW stCached "inv" [devW] rfl rfl rfl).1

/-! ### C5: parse failure leaves the cache untouched -/

/-- C5.  When a refresh is attempted (forced, empty cache, or changed
hash) and the YAML parse raises, or the parsed value is not a list, the
call fails with the corresponding ToolError and the controller state —
cached device list and cached hash — is exactly the pre-call state. -/
theorem context_fault_leaves_cache_untouched :
    ∀ env st force raw, env.fetchRaw = Except.ok raw →
    (force = true ∨ st.context = none ∨ st.contextHash ≠ some (md5_hex_str raw)) →
    (∀ e, env.parse raw = ParseOutcome.failure e →
       get_processed_context env st force =
         (st, Except.error ("Error parsing YAML from context: " ++ e)))
    ∧ (env.parse raw = ParseOutcome.nonList →
       get_processed_context env st force =
         (st, Except.error "Parsed context from Home Assistant is not a list.")) := by
  intro env st force raw h1 hc
  constructor
  · intro e h2
    simp only [get_processed_context, h1]
    rw [if_pos hc]
    simp [h2]
  · intro h2
    simp only [get_processed_context, h1]
    rw [if_pos hc]
    simp [h2]

/-- C5 witness: a parse failure on a forced refresh errors and keeps the
empty state. -/
theorem context_fault_leaves_cache_untouched_witness :
    get_processed_context envBadParse ({} : CState) true =
      (({} : CState), Except.error ("Error parsing YAML from context: " ++ "bad yaml")) :=
  (context_fault_leaves_cache_untouched envBadParse {} true "inv" rfl (Or.inl rfl)).1
    "bad yaml" rfl

/-! ### C4: device ids are MD5 content hashes of the names field -/

/-- C4.  Every record entering the cache carries
`id = md5(names.encode("utf-8")).hexdigest()` computed from its own
`names` value (absent `names` hashes the empty string), and the id is
deterministic: any two processed records, in the same refresh or in
different refreshes, with equal `names` have equal ids. -/
theorem device_id_is_md5_of_names :
    (∀ xs, ∀ d ∈ _process_context xs, d.id = some (md5_hex_str (d.names.getD "")))
    ∧ (∀ xs ys, ∀ d ∈ _process_context xs, ∀ e ∈ _process_context ys,
        d.names = e.names → d.id = e.id) := by
  have base : ∀ xs, ∀ d ∈ _process_context xs,
      d.id = some (md5_hex_str (d.names.getD "")) := by
    intro xs d hd
    simp only [_process_context, List.mem_map] at hd
    obtain ⟨a, _, rfl⟩ := hd
    simp [process_item]
  refine ⟨base, fun xs ys d hd e he hnames => ?_⟩
  rw [base xs d hd, base ys e he, hnames]

/-- C4 witness: the id assigned to a concrete record is the MD5 of its
name, across two separate refreshes. -/
theorem device_id_is_md5_of_names_witness :
    (process_item devW).id = some (md5_hex_str ((process_item devW).names.getD "")) :=
  device_id_is_md5_of_names.1 [devW] (process_item devW) (by simp [_process_context])

/-! ### C2: batch shape and per-position fault capture -/

/-- C2.  Once the context read succeeds, both batch operations return a
sequence obtained by mapping the per-device dispatch over the input ids
— same length, position `i` produced from `ids[i]` — and a hub fault on
one device's command becomes that position's
`{success := false, device_id, error}` outcome instead of propagating
(the dispatch functions are total). -/
theorem batch_outcomes_positional :
    ∀ env st ids st2 ctx, get_processed_context env st false = (st2, Except.ok ctx) →
    (∀ t_on : Bool, control_switch env st ids t_on =
        (st2, Except.ok (ids.map (fun i => (switch_dispatch_one env.hub ctx t_on i).1))) ∧
      (ids.map (fun i => (switch_dispatch_one env.hub ctx t_on i).1)).length = ids.length)
    ∧ (∀ b : Option Int, control_light_brightness env st ids b =
        (st2, Except.ok (ids.map (fun i => (light_dispatch_one env.hub ctx b i).1))) ∧
      (ids.map (fun i => (light_dispatch_one env.hub ctx b i).1)).length = ids.length)
    ∧ (∀ (t_on : Bool) i dev n a e,
        ctx.find? (fun item => item.id == some i) = some dev →
        dev.names = some n → dev.areas = some a →
        env.hub (hass_turn_call n a t_on) = Except.error e →
        (switch_dispatch_one env.hub ctx t_on i).1 =
          { success := false, device_id := some i, result := none, error := some e })
    ∧ (∀ (b : Option Int) i dev n a e,
        ctx.find? (fun item => item.id == some i) = some dev →
        dev.names = some n → dev.areas = some a →
        env.hub (hass_light_set_call n a b) = Except.error e →
        (light_dispatch_one env.hub ctx b i).1 =
          { success := false, device_id := some i, result := none, error := some e }) := by
  intro env st ids st2 ctx h
  refine ⟨fun t_on => ⟨?_, by simp⟩, fun b => ⟨?_, by simp⟩, ?_, ?_⟩
  · simp [control_switch, h]
  · simp [control_light_brightness, h]
  · intro t_on i dev n a e hfind hn ha hhub
    simp [switch_dispatch_one, hfind, hn, ha, hhub]
  · intro b i dev n a e hfind hn ha hhub
    simp [light_dispatch_one, hfind, hn, ha, hhub]

/-- C2 witness: one cached device, a hub that raises, one input id — the
batch returns a single `{success := false, device_id, error}` outcome. -/
theorem batch_outcomes_positional_witness :
    control_switch envW ({} : CState) [md5_hex_str "Lamp"] true =
      ({ context := some (_process_context [devW]),
         contextHash := some (md5_hex_str "inv") },
       Except.ok [{ success := false, device_id := some (md5_hex_str "Lamp"),
                    result := none, error := some "boom" }]) := by
  have h := batch_outcomes_positional envW {} [md5_hex_str "Lamp"]
    { context := some (_process_context [devW]), contextHash := some (md5_hex_str "inv") }
    (_process_context [devW]) rfl
  rw [(h.1 true).1]
  rfl

/-! ### C6: which outcomes carry a device_id -/

/-- C6 counterexample: a dispatch call on an id resolving to no cached
device produces an outcome with no `device_id` key at all (`none`), so
not every produced outcome contains a `device_id` field alongside
`success` and `result`/`error`. -/
theorem outcome_missing_device_id_counterexample :
    (control_switch envDisp ({} : CState) ["missing-id"] true).2 =
      Except.ok [{ success := false, device_id := none, result := none,
                   error := some "Device with id 'missing-id' not found." }] := by
  rfl

/-- C6 amended: outcomes produced by the hub-command stage carry
`device_id`; the not-found outcome (and the missing-attributes outcome)
carries only `success` and `error`, identifying the device inside the
error text instead; for an input id that resolves to no cached device
the batch yields exactly that single outcome and does not raise. -/
theorem outcome_device_id_fields :
    (∀ hub ctx (t_on : Bool) i, ctx.find? (fun item => item.id == some i) = none →
       switch_dispatch_one hub ctx t_on i =
         ({ success := false, device_id := none, result := none,
            error := some ("Device with id '" ++ i ++ "' not found.") }, []))
    ∧ (∀ hub ctx (t_on : Bool) i dev n a,
        ctx.find? (fun item => item.id == some i) = some dev →
        dev.names = some n → dev.areas = some a →
        (switch_dispatch_one hub ctx t_on i).1.device_id = some i)
    ∧ (∀ hub ctx (t_on : Bool) i dev,
        ctx.find? (fun item => item.id == some i) = some dev →
        (dev.names = none ∨ dev.areas = none) →
        (switch_dispatch_one hub ctx t_on i).1.device_id = none)
    ∧ (∀ env st st2 ctx i (t_on : Bool),
        get_processed_context env st false = (st2, Except.ok ctx) →
        ctx.find? (fun item => item.id == some i) = none →
        (control_switch env st [i] t_on).2 =
          Except.ok [{ success := false, device_id := none, result := none,
                       error := some ("Device with id '" ++ i ++ "' not found.") }]) := by
  refine ⟨?_, ?_, ?_, ?_⟩
  · intro hub ctx t_on i hfind
    simp [switch_dispatch_one, hfind]
  · intro hub ctx t_on i dev n a hfind hn ha
    cases hhub : hub (hass_turn_call n a t_on) <;>
      simp [switch_dispatch_one, hfind, hn, ha, hhub]
  · intro hub ctx t_on i dev hfind hmiss
    rcases hn : dev.names with _ | n <;> rcases ha : dev.areas with _ | a
    · simp [switch_dispatch_one, hfind, hn, ha]
    · simp [switch_dispatch_one, hfind, hn, ha]
    · simp [switch_dispatch_one, hfind, hn, ha]
    · rcases hmiss with hmiss | hmiss <;> simp_all
  · intro env st st2 ctx i t_on h hfind
    simp [control_switch, h, switch_dispatch_one, hfind]

/-- C6 witness of the amended claim: the single not-found outcome on a
concrete batch. -/
theorem outcome_device_id_fields_witness :
    (control_switch envDisp ({} : CState) ["absent"] false).2 =
      Except.ok [{ success := false, device_id := none, result := none,
                   error := some ("Device with id '" ++ "absent" ++ "' not found.") }] :=
  outcome_device_id_fields.2.2.2 envDisp {}
    { context := some [], contextHash := some (md5_hex_str "inventory") } [] "absent" false
    rfl rfl

/-! ### C7: the missing-attributes guard -/

/-- C7 counterexample: a resolved descriptor that has a name but lacks
an area does not proceed to the hub command — the code emits the
missing-attributes outcome whenever either attribute is absent, not only
when both are. -/
theorem missing_attrs_counterexample :
    switch_dispatch_one hubAccept [devNameOnly] true "d1" =
      ({ success := false, device_id := none, result := none,
         error := some "Device 'd1' is missing 'names' or 'areas' information." }, []) ∧
    devNameOnly.names = some "Desk Lamp" := by
  exact ⟨rfl, rfl⟩

/-- C7 amended: for a resolved descriptor, the missing-attributes
outcome is emitted (and the hub command skipped) exactly when at least
one of the name and area attributes is absent; only a descriptor with
both attributes proceeds to the hub command.  Holds for both the switch
and the brightness dispatcher. -/
theorem missing_attrs_iff_either_missing :
    ∀ hub ctx i dev, ctx.find? (fun item => item.id == some i) = some dev →
    (∀ t_on : Bool,
      ((switch_dispatch_one hub ctx t_on i).1 =
         { success := false, device_id := none, result := none,
           error := some ("Device '" ++ i ++ "' is missing 'names' or 'areas' information.") } ∧
       (switch_dispatch_one hub ctx t_on i).2 = [])
      ↔ (dev.names = none ∨ dev.areas = none))
    ∧ (∀ (t_on : Bool) n a, dev.names = some n → dev.areas = some a →
        (switch_dispatch_one hub ctx t_on i).2 = [hass_turn_call n a t_on])
    ∧ (∀ b : Option Int,
      ((light_dispatch_one hub ctx b i).1 =
         { success := false, device_id := none, result := none,
           error := some ("Device '" ++ i ++ "' is missing 'names' or 'areas' information.") } ∧
       (light_dispatch_one hub ctx b i).2 = [])
      ↔ (dev.names = none ∨ dev.areas = none))
    ∧ (∀ (b : Option Int) n a, dev.names = some n → dev.areas = some a →
        (light_dispatch_one hub ctx b i).2 = [hass_light_set_call n a b]) := by
  intro hub ctx i dev hfind
  refine ⟨?_, ?_, ?_, ?_⟩
  · intro t_on
    rcases hn : dev.names with _ | n <;> rcases ha : dev.areas with _ | a
    · simp [switch_dispatch_one, hfind, hn, ha]
    · simp [switch_dispatch_one, hfind, hn, ha]
    · simp [switch_dispatch_one, hfind, hn, ha]
    · cases hhub : hub (hass_turn_call n a t_on) <;>
        simp [switch_dispatch_one, hfind, hn, ha, hhub]
  · intro t_on n a hn ha
    cases hhub : hub (hass_turn_call n a t_on) <;>
      simp [switch_dispatch_one, hfind, hn, ha, hhub]
  · intro b
    rcases hn : dev.names with _ | n <;> rcases ha : dev.areas with _ | a
    · simp [light_dispatch_one, hfind, hn, ha]
    · simp [light_dispatch_one, hfind, hn, ha]
    · simp [light_dispatch_one, hfind, hn, ha]
    · cases hhub : hub (hass_light_set_call n a b) <;>
        simp [light_dispatch_one, hfind, hn, ha, hhub]
  · intro b n a hn ha
    cases hhub : hub (hass_light_set_call n a b) <;>
      simp [light_dispatch_one, hfind, hn, ha, hhub]

/-- C7 witness of the amended claim: a name-only descriptor triggers the
missing-attributes outcome with no hub command. -/
theorem missing_attrs_iff_either_missing_witness :
    (switch_dispatch_one hubAccept [devNameOnly] true "d1").1 =
      { success := false, device_id := none, result := none,
        error := some ("Device '" ++ "d1" ++ "' is missing 'names' or 'areas' information.") } ∧
    (switch_dispatch_one hubAccept [devNameOnly] true "d1").2 = [] :=
  ((missing_attrs_iff_either_missing hubAccept [devNameOnly] "d1" devNameOnly rfl).1
    true).mpr (Or.inr rfl)

/-! ### C8: brightness key omitted when unset -/

/-- C8.  With brightness unset the HassLightSet argument mapping holds
exactly the `name` and `area` keys and nothing else — no brightness key
at all; with an integer brightness it additionally holds a `brightness`
entry; and every hub command a brightness-unset dispatch issues has that
shape. -/
theorem light_set_omits_brightness_when_none :
    (∀ n a, hass_light_set_call n a none =
       { tool := "HassLightSet", args := [("name", n), ("area", a)] })
    ∧ (∀ n a, (hass_light_set_call n a none).args.map Prod.fst = ["name", "area"])
    ∧ (∀ n a (b : Int), hass_light_set_call n a (some b) =
       { tool := "HassLightSet",
         args := [("name", n), ("area", a), ("brightness", toString b)] })
    ∧ (∀ hub ctx i c, c ∈ (light_dispatch_one hub ctx none i).2 →
        ∃ n a, c = hass_light_set_call n a none) := by
  refine ⟨fun n a => rfl, fun n a => rfl, fun n a b => rfl, ?_⟩
  intro hub ctx i c hc
  rcases hfind : ctx.find? (fun item => item.id == some i) with _ | dev
  · simp [light_dispatch_one, hfind] at hc
  · rcases hn : dev.names with _ | n <;> rcases ha : dev.areas with _ | a
    · simp [light_dispatch_one, hfind, hn, ha] at hc
    · simp [light_dispatch_one, hfind, hn, ha] at hc
    · simp [light_dispatch_one, hfind, hn, ha] at hc
    · cases hhub : hub (hass_light_set_call n a none) <;>
        simp [light_dispatch_one, hfind, hn, ha, hhub] at hc <;>
        exact ⟨n, a, hc⟩

/-- C8 witness: the command issued for a cached device with brightness
unset is a HassLightSet call without a brightness key. -/
theorem light_set_omits_brightness_when_none_witness :
    ∃ n a, hass_light_set_call "Ceiling Lamp" "Living Room" none =
      hass_light_set_call n a none :=
  light_set_omits_brightness_when_none.2.2.2 hubAccept [devFull] "dev-1"
    (hass_light_set_call "Ceiling Lamp" "Living Room" none) (by decide)

/-! ### C10: no local brightness range validation -/

/-- C10.  For every integer brightness, including values outside 0–100,
the dispatcher issues the hub command carrying that value converted to
its decimal string, and the outcome's success is decided solely by the
hub call's result — success on `ok`, captured failure on `error`, with
no local range check anywhere. -/
theorem brightness_forwarded_unvalidated :
    ∀ hub ctx i dev n a (b : Int),
    ctx.find? (fun item => item.id == some i) = some dev →
    dev.names = some n → dev.areas = some a →
    ((light_dispatch_one hub ctx (some b) i).2 = [hass_light_set_call n a (some b)])
    ∧ (("brightness", toString b) ∈ (hass_light_set_call n a (some b)).args)
    ∧ (∀ r, hub (hass_light_set_call n a (some b)) = Except.ok r →
        (light_dispatch_one hub ctx (some b) i).1 =
          { success := true, device_id := some i, result := some r, error := none })
    ∧ (∀ e, hub (hass_light_set_call n a (some b)) = Except.error e →
        (light_dispatch_one hub ctx (some b) i).1 =
          { success := false, device_id := some i, result := none, error := some e }) := by
  intro hub ctx i dev n a b hfind hn ha
  refine ⟨?_, ?_, ?_, ?_⟩
  · cases hhub : hub (hass_light_set_call n a (some b)) <;>
      simp [light_dispatch_one, hfind, hn, ha, hhub]
  · simp [hass_light_set_call]
  · intro r hhub
    simp [light_dispatch_one, hfind, hn, ha, hhub]
  · intro e hhub
    simp [light_dispatch_one, hfind, hn, ha, hhub]

/-- C10 witness: brightness −5 and 200 are both forwarded as decimal
strings and succeed when the hub accepts. -/
theorem brightness_forwarded_unvalidated_witness :
    ((light_dispatch_one hubAccept [devFull] (some (-5)) "dev-1").1 =
      { success := true, device_id := some "dev-1", result := some "{}", error := none })
    ∧ ("brightness", "200") ∈
        (hass_light_set_call "Ceiling Lamp" "Living Room" (some 200)).args :=
  ⟨(brightness_forwarded_unvalidated hubAccept [devFull] "dev-1" devFull
      "Ceiling Lamp" "Living Room" (-5) (by decide) rfl rfl).2.2.1 "{}" rfl,
   (brightness_forwarded_unvalidated hubAccept [devFull] "dev-1" devFull
      "Ceiling Lamp" "Living Room" 200 (by decide) rfl rfl).2.1⟩

end HAMCP
